import Mathlib

set_option maxRecDepth 8000

/-!
Verification of the protocol codec of the Nelko P21 label-printer driver
(p21_print.py).  Byte sequences are modelled as `List Nat` whose elements are
below 256; machine arithmetic on the 16-bit CRC register is modelled on `Nat`
with explicit bounds.  Fallible Python code (functions that raise `ValueError`
or `struct.error`) is modelled with `Option`.
-/

/-- ASCII bytes of a string literal, mirroring Python `str.encode()` for the
ASCII command strings used by the driver. -/
def strBytes (s : String) : List Nat := s.toList.map Char.toNat

/-- Fuelled decimal-digit emitter underlying `asciiDigits`. -/
def asciiDigitsCore : Nat → Nat → List Nat → List Nat
  | 0, _, acc => acc
  | fuel + 1, n, acc =>
      if n < 10 then (48 + n) :: acc
      else asciiDigitsCore fuel (n / 10) ((48 + n % 10) :: acc)

/-- ASCII bytes of the decimal rendering of a natural number, mirroring the
Python f-string interpolation of a non-negative int. -/
def asciiDigits (n : Nat) : List Nat := asciiDigitsCore (n + 1) n []

/-- One inner-loop iteration of `crc16` (p21_print.py lines 23-26): shift the
register right one bit, XOR-ing with 0xA001 when the low bit was set. -/
def crcStep (crc : Nat) : Nat :=
  if crc &&& 1 = 1 then (crc >>> 1) ^^^ 0xA001 else crc >>> 1

/-- Processing of one input byte by `crc16` (lines 21-26): XOR the byte into
the register, then run 8 iterations of `crcStep`. -/
def crcByte (crc b : Nat) : Nat := crcStep^[8] (crc ^^^ b)

/-- The final 16-bit CRC register of `crc16`: initial value 0xFFFF, folding
`crcByte` over the input bytes. -/
def crc16_register (data : List Nat) : Nat := data.foldl crcByte 0xFFFF

/-- Big-endian 2-byte encoding, mirroring `int.to_bytes(2, byteorder="big")`
on a value below 2^16 (the CRC register invariant). -/
def to_bytes_2_be (n : Nat) : List Nat := [n / 256 % 256, n % 256]

/-- `crc16` (p21_print.py lines 18-28): the 2-byte big-endian checksum. -/
def crc16 (data : List Nat) : List Nat := to_bytes_2_be (crc16_register data)

/-- Modelled from the spec: one iteration of the spec's CRC loop (spec section
4.1), written with the spec's arithmetic phrasing (low bit, shift right one
bit) for comparison with the source-derived `crcStep`. -/
def crcStepSpec (reg : Nat) : Nat :=
  if reg % 2 = 1 then (reg / 2) ^^^ 0xA001 else reg / 2

/-- Modelled from the spec: the spec's per-byte CRC processing. -/
def crcByteSpec (reg b : Nat) : Nat := crcStepSpec^[8] (reg ^^^ b)

/-- Modelled from the spec: the whole checksum of spec section 4.1 - initial
register 0xFFFF, per-byte processing, final register emitted high byte
first. -/
def checksumSpec (data : List Nat) : List Nat :=
  [(data.foldl crcByteSpec 0xFFFF) / 256 % 256, (data.foldl crcByteSpec 0xFFFF) % 256]

/-- Explicit inverse of `crcStep` on 16-bit registers, used to prove that the
CRC state update is injective. -/
def crcStepInv (d : Nat) : Nat :=
  if d.testBit 15 then 2 * (d ^^^ 0xA001) + 1 else 2 * d

/-- `validate_checksum` (p21_print.py lines 110-118): `true` means the frame
is accepted, `false` models the raised `ValueError`.  `data[-2:]` is the drop,
`data[:-2]` the take, matching Python slice semantics via truncated
subtraction. -/
def validate_checksum (data : List Nat) : Bool :=
  data.drop (data.length - 2) == crc16 (data.take (data.length - 2))

/-- `PrinterReadinessStatus` (p21_print.py lines 66-83). -/
inductive PrinterReadinessStatus
  | READY
  | LID_OPEN
  | OUT_OF_PAPER
  | BUSY
deriving DecidableEq

/-- The Python `IntEnum` value lookup `PrinterReadinessStatus(n)`, which
raises `ValueError` (here: `none`) for a value that is not a member. -/
def PrinterReadinessStatus.ofNat? : Nat → Option PrinterReadinessStatus
  | 0 => some .READY
  | 1 => some .LID_OPEN
  | 4 => some .OUT_OF_PAPER
  | 32 => some .BUSY
  | _ => none

/-- `PaperType` (p21_print.py lines 49-63). -/
inductive PaperType
  | CONTINUOUS
  | GAPPED
  | BLACKMARK
deriving DecidableEq

/-- The Python `IntEnum` value lookup `PaperType(n)`. -/
def PaperType.ofNat? : Nat → Option PaperType
  | 0 => some .CONTINUOUS
  | 1 => some .GAPPED
  | 2 => some .BLACKMARK
  | _ => none

/-- `PaperColor` (p21_print.py lines 86-107). -/
inductive PaperColor
  | UNKNOWN
  | TRANSPARENT
  | WHITE
  | PINK
  | BLUE
  | YELLOW
deriving DecidableEq

/-- The Python `IntEnum` value lookup `PaperColor(n)`. -/
def PaperColor.ofNat? : Nat → Option PaperColor
  | 0 => some .UNKNOWN
  | 2 => some .TRANSPARENT
  | 3 => some .WHITE
  | 4 => some .PINK
  | 5 => some .BLUE
  | 6 => some .YELLOW
  | _ => none

/-- `TimeoutSetting` (p21_print.py lines 212-229). -/
inductive TimeoutSetting
  | NEVER
  | MINUTES_15
  | MINUTES_30
  | MINUTES_60
deriving DecidableEq

/-- The Python `IntEnum` value lookup `TimeoutSetting(n)`. -/
def TimeoutSetting.ofNat? : Nat → Option TimeoutSetting
  | 0 => some .NEVER
  | 1 => some .MINUTES_15
  | 2 => some .MINUTES_30
  | 3 => some .MINUTES_60
  | _ => none

/-- `BeepSetting` (p21_print.py lines 232-243). -/
inductive BeepSetting
  | OFF
  | ON
deriving DecidableEq

/-- `PrinterStatus` (p21_print.py lines 132-148): one field per constructor
assignment, in source order of the byte indices. -/
structure PrinterStatus where
  printer_status : PrinterReadinessStatus
  data_length : Nat
  data_unknown : Nat
  data_unknown2 : Nat
  label_color : PaperColor
  border_radius : Nat
  data_unknown3 : Nat
  paper_type : PaperType
  data_unknown4 : Nat
  data_unknown5 : Nat
  data_unknown6 : Nat
  label_length : Nat
  maximum_label_width : Nat
  label_width : Nat
  data_unknown7 : Nat
deriving DecidableEq

/-- `PrinterStatus.__init__` (p21_print.py lines 133-148).  The three
`IntEnum` lookups can each raise, so the result is an `Option`; the indices
mirror `data[0]`, `data[4]`, `data[6]`, `data[5]`, `data[7]`, and so on.  The
caller guarantees 16 entries, so `getD _ 0` is always in range. -/
def PrinterStatus.ofData (data : List Nat) : Option PrinterStatus :=
  match PrinterReadinessStatus.ofNat? (data.getD 0 0),
        PaperColor.ofNat? (data.getD 4 0),
        PaperType.ofNat? (data.getD 7 0) with
  | some ps, some col, some pt =>
      some ⟨ps, data.getD 1 0, data.getD 2 0, data.getD 3 0, col, data.getD 6 0,
            data.getD 5 0, pt, data.getD 8 0, data.getD 9 0, data.getD 10 0,
            data.getD 11 0, data.getD 12 0, data.getD 13 0, data.getD 14 0⟩
  | _, _, _ => none

/-- `unpack_printer_status` (p21_print.py lines 127-129): `struct.unpack`
with sixteen `B` fields raises unless the buffer is exactly 16 bytes. -/
def unpack_printer_status (status : List Nat) : Option PrinterStatus :=
  if status.length = 16 then PrinterStatus.ofData status else none

/-- `get_printer_status` (p21_print.py lines 121-124) applied to the received
response bytes: validate the checksum, then unpack. -/
def get_printer_status (status : List Nat) : Option PrinterStatus :=
  if validate_checksum status then unpack_printer_status status else none

/-- `DeviceConfig` (p21_print.py lines 31-37).  `packaging.version.Version`
of the string "a.b.c" is modelled as the triple (a, b, c); the `>h` struct
field is a signed 16-bit integer, hence `Int`. -/
structure DeviceConfig where
  dpi_resolution : Int
  hardware_version : Nat × Nat × Nat
  second_firmware_version : Nat × Nat × Nat
  timeout_setting : TimeoutSetting
  beep_setting : BeepSetting
deriving DecidableEq

/-- The `>h` field of `struct.unpack`: two big-endian bytes read as a signed
16-bit integer. -/
def unpackShortBE (hi lo : Nat) : Int :=
  if hi * 256 + lo < 32768 then Int.ofNat (hi * 256 + lo)
  else Int.ofNat (hi * 256 + lo) - 65536

/-- `clean_serial_response` (p21_print.py lines 292-301): cut off the prefix
and the final two bytes (`response[len(prefix):-2]`), then require the prefix
to be present and the cleaned payload to have the expected length;
`none` models the raised `ValueError`. -/
def clean_serial_response (response pfx : List Nat) (expected_len : Nat) : Option (List Nat) :=
  let cleaned := (response.take (response.length - 2)).drop pfx.length
  if pfx.isPrefixOf response && (cleaned.length == expected_len) then some cleaned else none

/-- `DeviceConfig` built from the tuple unpacked by `struct.unpack(">hBBBBBBB?", _)`
in `get_config` (p21_print.py lines 276-280): payload bytes 0-1 form the
signed short, bytes 2-4 and 5-7 the two versions, byte 8 the timeout (whose
`IntEnum` lookup can raise) and byte 9 the `?`-decoded boolean beep flag. -/
def DeviceConfig.ofPayload (cd : List Nat) : Option DeviceConfig :=
  match TimeoutSetting.ofNat? (cd.getD 8 0) with
  | some ts =>
      some ⟨unpackShortBE (cd.getD 0 0) (cd.getD 1 0),
            (cd.getD 2 0, cd.getD 3 0, cd.getD 4 0),
            (cd.getD 5 0, cd.getD 6 0, cd.getD 7 0),
            ts,
            if cd.getD 9 0 != 0 then BeepSetting.ON else BeepSetting.OFF⟩
  | none => none

/-- The decoding path of `get_config` (p21_print.py lines 276-280) applied to
the received response bytes: strip the "CONFIG " envelope expecting a 10-byte
payload, unpack `>hBBBBBBB?` (which itself requires exactly 10 bytes), and
build the `DeviceConfig`. -/
def get_config_decode (response : List Nat) : Option DeviceConfig :=
  match clean_serial_response response (strBytes "CONFIG ") 10 with
  | some cd => if cd.length = 10 then DeviceConfig.ofPayload cd else none
  | none => none

/-- `get_timeout_command` (p21_print.py lines 304-319): map the minutes value
to a `TimeoutSetting` ordinal embedded as a single character code point after
"TIMEOUT "; any other minutes value returns `None`. -/
def get_timeout_command (timeout : Nat) : Option (List Nat) :=
  if timeout = 0 then some (strBytes "TIMEOUT " ++ [0])
  else if timeout = 15 then some (strBytes "TIMEOUT " ++ [1])
  else if timeout = 30 then some (strBytes "TIMEOUT " ++ [2])
  else if timeout = 60 then some (strBytes "TIMEOUT " ++ [3])
  else none

/-- `build_print_command` (p21_print.py lines 347-357): plain concatenation of
the fixed command lines, the density and copies interpolations, and the raw
bitmap bytes. -/
def build_print_command (imagedata : List Nat) (density copies : Nat) : List Nat :=
  strBytes "\x1b!o\r\n" ++
  strBytes "SIZE 14.0 mm,40.0 mm\r\n" ++
  strBytes "GAP 5.0 mm,0 mm\r\n" ++
  strBytes "DIRECTION 1,1\r\n" ++
  (strBytes "DENSITY " ++ asciiDigits density ++ strBytes "\r\n") ++
  strBytes "CLS\r\n" ++
  strBytes "BITMAP 0,0,12,284,1," ++
  imagedata ++
  (strBytes "\r\n" ++ strBytes "PRINT " ++ asciiDigits copies ++ strBytes "\r\n")

/-- The bytes written by `send_command` (p21_print.py lines 331-341): when
`encode` is true the command is sent as `f"{command}\r\n".encode()`, appending
CR LF; otherwise the bytes are written verbatim. -/
def send_command_bytes (command : List Nat) (encode : Bool) : List Nat :=
  if encode then command ++ [13, 10] else command

/-- The bytes transmitted by `get_readiness_status` (p21_print.py lines
270-273): `send_command("\x1b!?")` with the default `encode=True`. -/
def readiness_query_bytes : List Nat := send_command_bytes (strBytes "\x1b!?") true

/-- The bytes transmitted by `get_printer_status` (p21_print.py line 122):
`send_command("\x1b!o\r\n")` with the default `encode=True`. -/
def status_query_bytes : List Nat := send_command_bytes (strBytes "\x1b!o\r\n") true

/-- The source's one-bit step written with modulus and division. -/
theorem crcStep_eq (c : Nat) :
    crcStep c = if c % 2 = 1 then (c / 2) ^^^ 0xA001 else c / 2 := by
  simp [crcStep, Nat.and_one_is_mod, Nat.shiftRight_eq_div_pow, pow_one]

/-- XOR of two 16-bit values stays 16-bit. -/
theorem xor_lt_65536 {a b : Nat} (ha : a < 65536) (hb : b < 65536) : a ^^^ b < 65536 := by
  have e : (65536 : Nat) = 2 ^ 16 := by norm_num
  rw [e] at ha hb ⊢
  exact Nat.xor_lt_two_pow ha hb

/-- The CRC register stays 16-bit across one shift step. -/
theorem crcStep_lt {c : Nat} (h : c < 65536) : crcStep c < 65536 := by
  rw [crcStep_eq]
  have hdiv : c / 2 < 65536 := Nat.lt_of_le_of_lt (Nat.div_le_self c 2) h
  split
  · exact xor_lt_65536 hdiv (by norm_num)
  · exact hdiv

/-- Values below 2^15 have bit 15 clear. -/
theorem testBit15_of_lt {x : Nat} (h : x < 32768) : x.testBit 15 = false := by
  apply Nat.testBit_eq_false_of_lt
  have e : (2 : Nat) ^ 15 = 32768 := by norm_num
  omega

/-- XOR-ing a value below 2^15 with the polynomial 0xA001 sets bit 15. -/
theorem testBit15_xor_a001 {x : Nat} (h : x < 32768) : (x ^^^ 0xA001).testBit 15 = true := by
  rw [Nat.testBit_xor, testBit15_of_lt h]
  decide

/-- The shift step of the CRC is inverted by `crcStepInv` on 16-bit registers,
hence injective there. -/
theorem crcStepInv_crcStep {c : Nat} (h : c < 65536) : crcStepInv (crcStep c) = c := by
  rw [crcStep_eq]
  have hdiv : c / 2 < 32768 := by omega
  rcases Nat.mod_two_eq_zero_or_one c with he | ho
  · rw [if_neg (by omega)]
    simp only [crcStepInv]
    rw [if_neg (by simp [testBit15_of_lt hdiv])]
    omega
  · rw [if_pos ho]
    simp only [crcStepInv]
    rw [if_pos (testBit15_xor_a001 hdiv)]
    rw [Nat.xor_cancel_right]
    omega

/-- Iterating the shift step preserves the 16-bit bound. -/
theorem crcStep_iter_lt (n : Nat) : ∀ {c : Nat}, c < 65536 → crcStep^[n] c < 65536 := by
  induction n with
  | zero => intro c h; simpa using h
  | succ k ih =>
      intro c h
      rw [Function.iterate_succ_apply]
      exact ih (crcStep_lt h)

/-- The iterated inverse undoes the iterated shift step on 16-bit registers. -/
theorem crcStepInv_iter (n : Nat) :
    ∀ {c : Nat}, c < 65536 → crcStepInv^[n] (crcStep^[n] c) = c := by
  induction n with
  | zero => intro c _; simp
  | succ k ih =>
      intro c h
      rw [Function.iterate_succ_apply, Function.iterate_succ_apply']
      rw [crcStepInv_crcStep (crcStep_iter_lt k h), ih h]

/-- Per-byte CRC processing preserves the 16-bit bound. -/
theorem crcByte_lt {c b : Nat} (hc : c < 65536) (hb : b < 65536) : crcByte c b < 65536 :=
  crcStep_iter_lt 8 (xor_lt_65536 hc hb)

/-- Per-byte CRC processing is injective in the XOR-ed register. -/
theorem crcByte_inj {c1 c2 b1 b2 : Nat} (h1 : c1 < 65536) (h2 : c2 < 65536)
    (hb1 : b1 < 65536) (hb2 : b2 < 65536) (he : crcByte c1 b1 = crcByte c2 b2) :
    c1 ^^^ b1 = c2 ^^^ b2 := by
  have e1 := crcStepInv_iter 8 (xor_lt_65536 h1 hb1)
  have e2 := crcStepInv_iter 8 (xor_lt_65536 h2 hb2)
  unfold crcByte at he
  rw [← e1, ← e2, he]

/-- Folding the CRC over a byte list preserves the 16-bit bound. -/
theorem foldl_crcByte_lt : ∀ (s : List Nat), (∀ x ∈ s, x < 256) →
    ∀ {c : Nat}, c < 65536 → s.foldl crcByte c < 65536 := by
  intro s
  induction s with
  | nil => intro _ c h; simpa using h
  | cons a t ih =>
      intro hs c h
      rw [List.foldl_cons]
      apply ih (fun x hx => hs x (List.mem_cons_of_mem a hx))
      exact crcByte_lt h (lt_trans (hs a (List.mem_cons_self a t)) (by norm_num))

/-- Folding the CRC over a common byte suffix keeps distinct registers
distinct. -/
theorem foldl_crcByte_ne : ∀ (s : List Nat), (∀ x ∈ s, x < 256) →
    ∀ {c1 c2 : Nat}, c1 < 65536 → c2 < 65536 → c1 ≠ c2 →
    s.foldl crcByte c1 ≠ s.foldl crcByte c2 := by
  intro s
  induction s with
  | nil => intro _ c1 c2 _ _ hne; simpa using hne
  | cons a t ih =>
      intro hs c1 c2 h1 h2 hne
      rw [List.foldl_cons, List.foldl_cons]
      have ha : a < 65536 := lt_trans (hs a (List.mem_cons_self a t)) (by norm_num)
      apply ih (fun x hx => hs x (List.mem_cons_of_mem a hx)) (crcByte_lt h1 ha) (crcByte_lt h2 ha)
      intro hcontra
      apply hne
      have hx := crcByte_inj h1 h2 ha ha hcontra
      calc c1 = (c1 ^^^ a) ^^^ a := (Nat.xor_cancel_right a c1).symm
        _ = (c2 ^^^ a) ^^^ a := by rw [hx]
        _ = c2 := Nat.xor_cancel_right a c2

/-- The 16-bit bound on the whole CRC register. -/
theorem crc16_register_lt (data : List Nat) (hd : ∀ x ∈ data, x < 256) :
    crc16_register data < 65536 :=
  foldl_crcByte_lt data hd (by norm_num)

/-- Big-endian 2-byte encoding is injective on 16-bit values. -/
theorem to_bytes_2_be_inj {a b : Nat} (ha : a < 65536) (hb : b < 65536)
    (h : to_bytes_2_be a = to_bytes_2_be b) : a = b := by
  unfold to_bytes_2_be at h
  simp only [List.cons.injEq, and_true] at h
  obtain ⟨h1, h2⟩ := h
  have da : a / 256 < 256 := by omega
  have db : b / 256 < 256 := by omega
  rw [Nat.mod_eq_of_lt da, Nat.mod_eq_of_lt db] at h1
  omega

/-- Changing one byte of the input changes the CRC. -/
theorem crc16_set_ne (b : List Nat) (hb : ∀ y ∈ b, y < 256) (i : Fin b.length)
    (x : Nat) (hx : x < 256) (hne : x ≠ b.get i) :
    crc16 (b.set i x) ≠ crc16 b := by
  intro hcontra
  have hset : b.set i x = b.take i ++ x :: b.drop (i + 1) :=
    List.set_eq_take_cons_drop x i.isLt
  have horig : b.take i ++ b.get i :: b.drop (i + 1) = b := by
    conv_rhs => rw [← List.take_append_drop (i : Nat) b]
    rw [List.drop_eq_get_cons i.isLt]
  have htake : ∀ y ∈ b.take (i : Nat), y < 256 := fun y hy => hb y (List.take_subset _ _ hy)
  have hdrop : ∀ y ∈ b.drop ((i : Nat) + 1), y < 256 := fun y hy => hb y (List.drop_subset _ _ hy)
  have hg : b.get i < 256 := hb _ (List.get_mem b i.1 i.2)
  have hc : List.foldl crcByte 0xFFFF (b.take (i : Nat)) < 65536 :=
    foldl_crcByte_lt _ htake (by norm_num)
  have hx65 : x < 65536 := lt_trans hx (by norm_num)
  have hg65 : b.get i < 65536 := lt_trans hg (by norm_num)
  have hregs : crc16_register (b.set i x) ≠ crc16_register b := by
    rw [hset]
    conv_rhs => rw [← horig]
    unfold crc16_register
    rw [List.foldl_append, List.foldl_append, List.foldl_cons, List.foldl_cons]
    apply foldl_crcByte_ne _ hdrop (crcByte_lt hc hx65) (crcByte_lt hc hg65)
    intro hcb
    have hxg := crcByte_inj hc hc hx65 hg65 hcb
    apply hne
    calc x = _ ^^^ (_ ^^^ x) := (Nat.xor_cancel_left _ x).symm
      _ = _ ^^^ (_ ^^^ b.get i) := by rw [hxg]
      _ = b.get i := Nat.xor_cancel_left _ _
  apply hregs
  have hsetbytes : ∀ y ∈ b.set i x, y < 256 := by
    intro y hy
    rw [hset] at hy
    rcases List.mem_append.1 hy with h' | h'
    · exact htake y h'
    · rcases List.mem_cons.1 h' with h'' | h''
      · exact h'' ▸ hx
      · exact hdrop y h''
  exact to_bytes_2_be_inj (crc16_register_lt _ hsetbytes) (crc16_register_lt _ hb) hcontra

/-- Validation of a frame that splits as payload plus a 2-byte tail compares
the tail with the CRC of the payload. -/
theorem validate_checksum_append (b chk : List Nat) (hlen : chk.length = 2) :
    validate_checksum (b ++ chk) = (chk == crc16 b) := by
  unfold validate_checksum
  have h1 : (b ++ chk).length - 2 = b.length := by simp [List.length_append, hlen]
  rw [h1, List.drop_left' rfl, List.take_left' rfl]

/-- Envelope stripping on a decomposed response: when the response is the
prefix, a payload, and any 2-byte tail, the result is the payload iff its
length matches the expectation. -/
theorem clean_serial_response_eq (pfx payload extra : List Nat) (hx : extra.length = 2)
    (n : Nat) :
    clean_serial_response (pfx ++ payload ++ extra) pfx n =
      if payload.length = n then some payload else none := by
  have hpre : pfx.isPrefixOf (pfx ++ payload ++ extra) = true := by
    rw [List.append_assoc]
    exact List.isPrefixOf_iff_prefix.2 (List.prefix_append _ _)
  have hlen : (pfx ++ payload ++ extra).length - 2 = pfx.length + payload.length := by
    simp only [List.length_append, hx]
    omega
  have hcleaned : ((pfx ++ payload ++ extra).take ((pfx ++ payload ++ extra).length - 2)).drop
      pfx.length = payload := by
    rw [hlen, List.take_left' (by simp), List.drop_left]
  simp only [clean_serial_response, hpre, hcleaned, Bool.true_and]
  by_cases h : payload.length = n <;> simp [h]

/-- Constructing a DeviceConfig from an explicit 10-byte payload whose
timeout byte is a catalogued TimeoutSetting tag. -/
theorem DeviceConfig.ofPayload_explicit (b0 b1 b2 b3 b4 b5 b6 b7 b8 b9 : Nat)
    (ts : TimeoutSetting) (hts : TimeoutSetting.ofNat? b8 = some ts) :
    DeviceConfig.ofPayload [b0, b1, b2, b3, b4, b5, b6, b7, b8, b9] =
      some ⟨unpackShortBE b0 b1, (b2, b3, b4), (b5, b6, b7), ts,
            if b9 != 0 then BeepSetting.ON else BeepSetting.OFF⟩ := by
  unfold DeviceConfig.ofPayload
  rw [show ([b0, b1, b2, b3, b4, b5, b6, b7, b8, b9] : List Nat).getD 8 0 = b8 from rfl, hts]
  rfl

/-- C1: the checksum function implements the spec's 16-bit CRC - initial
register 0xFFFF, each input byte XOR-ed into the low 8 bits, then 8
iterations of shift-right-one-bit with an XOR of 0xA001 when the low bit was
set - emitted as 2 bytes high byte first, and the checksum of the empty byte
sequence is FF FF. -/
theorem crc16_implements_spec_crc :
    (∀ data : List Nat, crc16 data = checksumSpec data) ∧ crc16 [] = [0xFF, 0xFF] := by
  constructor
  · intro data
    have hstep : crcStep = crcStepSpec := by
      funext c
      rw [crcStep_eq]
      rfl
    have hbyte : crcByte = crcByteSpec := by
      funext c b
      rw [crcByte, crcByteSpec, hstep]
    simp only [crc16, checksumSpec, crc16_register, to_bytes_2_be, hbyte]
  · decide

/-- C2: appending checksum(b) to b always yields a frame accepted by
validate_checksum, and changing any single byte of b without recomputing the
checksum makes validation fail. -/
theorem crc_roundtrip_and_sensitivity :
    (∀ b : List Nat, validate_checksum (b ++ crc16 b) = true) ∧
    (∀ b : List Nat, (∀ y ∈ b, y < 256) → ∀ i : Fin b.length, ∀ x : Nat,
      x < 256 → x ≠ b.get i → validate_checksum (b.set i x ++ crc16 b) = false) := by
  constructor
  · intro b
    rw [validate_checksum_append b (crc16 b) rfl]
    exact beq_self_eq_true _
  · intro b hb i x hx hne
    rw [validate_checksum_append (b.set i x) (crc16 b) rfl]
    exact beq_eq_false_iff_ne.2 (Ne.symm (crc16_set_ne b hb i x hx hne))

/-- Witness for C2 at the concrete frame [0] with its checksum, corrupted at
index 0 to the value 1. -/
theorem crc_roundtrip_and_sensitivity_witness :
    validate_checksum ([0] ++ crc16 [0]) = true ∧
    validate_checksum (([0] : List Nat).set 0 1 ++ crc16 [0]) = false :=
  ⟨crc_roundtrip_and_sensitivity.1 [0],
   crc_roundtrip_and_sensitivity.2 [0] (by decide) ⟨0, by decide⟩ 1 (by decide) (by decide)⟩

/-- C3 counterexample: a well-formed CONFIG envelope whose payload is exactly
9 bytes - which the claim says is the required length and must decode - is
rejected by the code, whose expected payload length is 10. -/
theorem config_nine_byte_payload_rejected :
    get_config_decode (strBytes "CONFIG " ++ [0, 0, 0, 0, 0, 0, 0, 0, 0] ++ [13, 10]) = none := by
  decide

/-- C3 amended: decode_config strips the "CONFIG " prefix and the trailing 2
bytes, requires the remaining payload to be exactly 10 bytes (else it is an
error), and maps it as: bytes 0-1 = DPI resolution as a big-endian signed
16-bit value, bytes 2-4 = hardware version, bytes 5-7 = secondary firmware
version, byte 8 = TimeoutSetting, byte 9 = BeepSetting (nonzero = on). -/
theorem config_decode_ten_byte_layout :
    (∀ b0 b1 b2 b3 b4 b5 b6 b7 b8 b9 t1 t2 : Nat, ∀ ts : TimeoutSetting,
      TimeoutSetting.ofNat? b8 = some ts →
      get_config_decode
          (strBytes "CONFIG " ++ [b0, b1, b2, b3, b4, b5, b6, b7, b8, b9] ++ [t1, t2]) =
        some ⟨unpackShortBE b0 b1, (b2, b3, b4), (b5, b6, b7), ts,
              if b9 != 0 then BeepSetting.ON else BeepSetting.OFF⟩) ∧
    (∀ (payload : List Nat) (t1 t2 : Nat), payload.length ≠ 10 →
      get_config_decode (strBytes "CONFIG " ++ payload ++ [t1, t2]) = none) := by
  constructor
  · intro b0 b1 b2 b3 b4 b5 b6 b7 b8 b9 t1 t2 ts hts
    have h1 : clean_serial_response
        (strBytes "CONFIG " ++ [b0, b1, b2, b3, b4, b5, b6, b7, b8, b9] ++ [t1, t2])
        (strBytes "CONFIG ") 10 = some [b0, b1, b2, b3, b4, b5, b6, b7, b8, b9] := by
      rw [clean_serial_response_eq (strBytes "CONFIG ")
        [b0, b1, b2, b3, b4, b5, b6, b7, b8, b9] [t1, t2] rfl]
      rfl
    unfold get_config_decode
    rw [h1]
    show DeviceConfig.ofPayload [b0, b1, b2, b3, b4, b5, b6, b7, b8, b9] = _
    exact DeviceConfig.ofPayload_explicit b0 b1 b2 b3 b4 b5 b6 b7 b8 b9 ts hts
  · intro payload t1 t2 hlen
    have h1 : clean_serial_response (strBytes "CONFIG " ++ payload ++ [t1, t2])
        (strBytes "CONFIG ") 10 = none := by
      rw [clean_serial_response_eq (strBytes "CONFIG ") payload [t1, t2] rfl, if_neg hlen]
    unfold get_config_decode
    rw [h1]

/-- Witness for the amended C3: a concrete 10-byte payload decodes with the
shifted layout, and a 9-byte payload is rejected. -/
theorem config_decode_ten_byte_layout_witness :
    get_config_decode (strBytes "CONFIG " ++ [0, 203, 1, 2, 3, 4, 5, 6, 1, 1] ++ [13, 10]) =
      some ⟨unpackShortBE 0 203, (1, 2, 3), (4, 5, 6), TimeoutSetting.MINUTES_15,
            if (1 : Nat) != 0 then BeepSetting.ON else BeepSetting.OFF⟩ ∧
    get_config_decode (strBytes "CONFIG " ++ [1, 2, 3, 4, 5, 6, 7, 8, 9] ++ [13, 10]) = none :=
  ⟨config_decode_ten_byte_layout.1 0 203 1 2 3 4 5 6 1 1 13 10 TimeoutSetting.MINUTES_15 rfl,
   config_decode_ten_byte_layout.2 [1, 2, 3, 4, 5, 6, 7, 8, 9] 13 10 (by decide)⟩

/-- C4: the code contradicts the claim - a 16-byte status frame whose
readiness byte is 2 (not a catalogued tag) carries a valid checksum, yet
decoding fails (the IntEnum lookup raises ValueError) instead of producing an
unrecognized-value representation. -/
theorem unknown_readiness_fails_decode :
    validate_checksum
        ([2, 0, 0, 0, 0, 0, 0, 0, 0, 0, 0, 0, 0, 0] ++
          crc16 [2, 0, 0, 0, 0, 0, 0, 0, 0, 0, 0, 0, 0, 0]) = true ∧
    PrinterReadinessStatus.ofNat? 2 = none ∧
    get_printer_status
        ([2, 0, 0, 0, 0, 0, 0, 0, 0, 0, 0, 0, 0, 0] ++
          crc16 [2, 0, 0, 0, 0, 0, 0, 0, 0, 0, 0, 0, 0, 0]) = none := by
  exact ⟨by decide, by decide, by decide⟩

/-- C5: the 16-byte status record with byte 0 = 0, byte 4 = 3, byte 7 = 1,
byte 11 = 40, byte 12 = 20, byte 13 = 14, all other payload bytes 0 and a
correct trailing checksum decodes to readiness READY, color WHITE, paper
GAPPED, label length 40, maximum label width 20, label width 14. -/
theorem device_status_field_mapping :
    (get_printer_status
        ([0, 0, 0, 0, 3, 0, 0, 1, 0, 0, 0, 40, 20, 14] ++
          crc16 [0, 0, 0, 0, 3, 0, 0, 1, 0, 0, 0, 40, 20, 14])).map
      (fun st => (st.printer_status, st.label_color, st.paper_type,
        st.label_length, st.maximum_label_width, st.label_width)) =
      some (PrinterReadinessStatus.READY, PaperColor.WHITE, PaperType.GAPPED, 40, 20, 14) := by
  decide

/-- C6: for a 3408-byte bitmap and in-range density and copies, the print-job
frame is exactly the claimed concatenation, with the bitmap embedded
verbatim. -/
theorem build_print_command_layout (bitmap : List Nat) (density copies : Nat)
    (hlen : bitmap.length = 3408) (hd1 : 1 ≤ density) (hd2 : density ≤ 15)
    (hc : 1 ≤ copies) :
    build_print_command bitmap density copies =
      [0x1B, 0x21, 0x6F, 0x0D, 0x0A] ++
      strBytes "SIZE 14.0 mm,40.0 mm\r\n" ++
      strBytes "GAP 5.0 mm,0 mm\r\n" ++
      strBytes "DIRECTION 1,1\r\n" ++
      (strBytes "DENSITY " ++ asciiDigits density ++ [0x0D, 0x0A]) ++
      strBytes "CLS\r\n" ++
      strBytes "BITMAP 0,0,12,284,1," ++
      bitmap ++
      ([0x0D, 0x0A] ++ strBytes "PRINT " ++ asciiDigits copies ++ [0x0D, 0x0A]) := by
  unfold build_print_command
  rw [(by decide : strBytes "\x1b!o\r\n" = [0x1B, 0x21, 0x6F, 0x0D, 0x0A]),
      (by decide : strBytes "\r\n" = [0x0D, 0x0A])]

/-- Witness for C6 at a concrete all-zero 3408-byte bitmap. -/
theorem build_print_command_layout_witness :
    (List.replicate 3408 (0 : Nat)).length = 3408 ∧
    build_print_command (List.replicate 3408 0) 15 1 =
      [0x1B, 0x21, 0x6F, 0x0D, 0x0A] ++
      strBytes "SIZE 14.0 mm,40.0 mm\r\n" ++
      strBytes "GAP 5.0 mm,0 mm\r\n" ++
      strBytes "DIRECTION 1,1\r\n" ++
      (strBytes "DENSITY " ++ asciiDigits 15 ++ [0x0D, 0x0A]) ++
      strBytes "CLS\r\n" ++
      strBytes "BITMAP 0,0,12,284,1," ++
      List.replicate 3408 0 ++
      ([0x0D, 0x0A] ++ strBytes "PRINT " ++ asciiDigits 1 ++ [0x0D, 0x0A]) :=
  ⟨List.length_replicate 3408 0, build_print_command_layout (List.replicate 3408 0) 15 1
    (List.length_replicate 3408 0) (by decide) (by decide) (by decide)⟩

/-- C7 counterexample: a 3407-byte bitmap - which the claim says must be
rejected with an error - is embedded verbatim in an emitted frame. -/
theorem build_print_command_3407_emits_frame :
    (List.replicate 3407 (0 : Nat)).length ≠ 3408 ∧
    build_print_command (List.replicate 3407 0) 15 1 =
      [0x1B, 0x21, 0x6F, 0x0D, 0x0A] ++
      strBytes "SIZE 14.0 mm,40.0 mm\r\n" ++
      strBytes "GAP 5.0 mm,0 mm\r\n" ++
      strBytes "DIRECTION 1,1\r\n" ++
      (strBytes "DENSITY " ++ asciiDigits 15 ++ [0x0D, 0x0A]) ++
      strBytes "CLS\r\n" ++
      strBytes "BITMAP 0,0,12,284,1," ++
      List.replicate 3407 0 ++
      ([0x0D, 0x0A] ++ strBytes "PRINT " ++ asciiDigits 1 ++ [0x0D, 0x0A]) := by
  constructor
  · rw [List.length_replicate]
    decide
  · unfold build_print_command
    rw [(by decide : strBytes "\x1b!o\r\n" = [0x1B, 0x21, 0x6F, 0x0D, 0x0A]),
        (by decide : strBytes "\r\n" = [0x0D, 0x0A])]

/-- C7 amended: the encoder performs no bitmap-length validation - for every
bitmap whose length differs from 3408 it still emits the frame with the
bitmap embedded verbatim, neither padded nor truncated (padding short rasters
to 3408 bytes is done by load_image, outside the encoder). -/
theorem build_print_command_no_length_validation (bitmap : List Nat)
    (density copies : Nat) (hlen : bitmap.length ≠ 3408) :
    build_print_command bitmap density copies =
      [0x1B, 0x21, 0x6F, 0x0D, 0x0A] ++
      strBytes "SIZE 14.0 mm,40.0 mm\r\n" ++
      strBytes "GAP 5.0 mm,0 mm\r\n" ++
      strBytes "DIRECTION 1,1\r\n" ++
      (strBytes "DENSITY " ++ asciiDigits density ++ [0x0D, 0x0A]) ++
      strBytes "CLS\r\n" ++
      strBytes "BITMAP 0,0,12,284,1," ++
      bitmap ++
      ([0x0D, 0x0A] ++ strBytes "PRINT " ++ asciiDigits copies ++ [0x0D, 0x0A]) := by
  unfold build_print_command
  rw [(by decide : strBytes "\x1b!o\r\n" = [0x1B, 0x21, 0x6F, 0x0D, 0x0A]),
      (by decide : strBytes "\r\n" = [0x0D, 0x0A])]

/-- Witness for the amended C7 at a concrete 3409-byte bitmap. -/
theorem build_print_command_no_length_validation_witness :
    (List.replicate 3409 (0 : Nat)).length ≠ 3408 ∧
    build_print_command (List.replicate 3409 0) 15 1 =
      [0x1B, 0x21, 0x6F, 0x0D, 0x0A] ++
      strBytes "SIZE 14.0 mm,40.0 mm\r\n" ++
      strBytes "GAP 5.0 mm,0 mm\r\n" ++
      strBytes "DIRECTION 1,1\r\n" ++
      (strBytes "DENSITY " ++ asciiDigits 15 ++ [0x0D, 0x0A]) ++
      strBytes "CLS\r\n" ++
      strBytes "BITMAP 0,0,12,284,1," ++
      List.replicate 3409 0 ++
      ([0x0D, 0x0A] ++ strBytes "PRINT " ++ asciiDigits 1 ++ [0x0D, 0x0A]) :=
  ⟨by rw [List.length_replicate]; decide,
   build_print_command_no_length_validation (List.replicate 3409 0) 15 1
     (by rw [List.length_replicate]; decide)⟩

/-- C8 counterexample: print jobs with density 0 and density 16 - which the
claim says must be rejected as invalid parameters - each produce an emitted
frame carrying that out-of-range density. -/
theorem print_density_not_validated :
    build_print_command [] 0 1 =
      [0x1B, 0x21, 0x6F, 0x0D, 0x0A] ++
      strBytes "SIZE 14.0 mm,40.0 mm\r\n" ++
      strBytes "GAP 5.0 mm,0 mm\r\n" ++
      strBytes "DIRECTION 1,1\r\n" ++
      (strBytes "DENSITY " ++ [48] ++ [0x0D, 0x0A]) ++
      strBytes "CLS\r\n" ++
      strBytes "BITMAP 0,0,12,284,1," ++
      [] ++
      ([0x0D, 0x0A] ++ strBytes "PRINT " ++ [49] ++ [0x0D, 0x0A]) ∧
    build_print_command [] 16 1 =
      [0x1B, 0x21, 0x6F, 0x0D, 0x0A] ++
      strBytes "SIZE 14.0 mm,40.0 mm\r\n" ++
      strBytes "GAP 5.0 mm,0 mm\r\n" ++
      strBytes "DIRECTION 1,1\r\n" ++
      (strBytes "DENSITY " ++ [49, 54] ++ [0x0D, 0x0A]) ++
      strBytes "CLS\r\n" ++
      strBytes "BITMAP 0,0,12,284,1," ++
      [] ++
      ([0x0D, 0x0A] ++ strBytes "PRINT " ++ [49] ++ [0x0D, 0x0A]) := by
  exact ⟨by decide, by decide⟩

/-- C8 amended: get_timeout_command rejects every minutes value outside
0, 15, 30, 60 by returning no command (never a clamped one), while
build_print_command performs no density or copies validation and emits the
frame for every density and copies value. -/
theorem timeout_rejected_print_params_unchecked :
    (∀ t : Nat, t ≠ 0 → t ≠ 15 → t ≠ 30 → t ≠ 60 → get_timeout_command t = none) ∧
    (∀ (bitmap : List Nat) (density copies : Nat),
      build_print_command bitmap density copies =
        [0x1B, 0x21, 0x6F, 0x0D, 0x0A] ++
        strBytes "SIZE 14.0 mm,40.0 mm\r\n" ++
        strBytes "GAP 5.0 mm,0 mm\r\n" ++
        strBytes "DIRECTION 1,1\r\n" ++
        (strBytes "DENSITY " ++ asciiDigits density ++ [0x0D, 0x0A]) ++
        strBytes "CLS\r\n" ++
        strBytes "BITMAP 0,0,12,284,1," ++
        bitmap ++
        ([0x0D, 0x0A] ++ strBytes "PRINT " ++ asciiDigits copies ++ [0x0D, 0x0A])) := by
  constructor
  · intro t h0 h15 h30 h60
    unfold get_timeout_command
    rw [if_neg h0, if_neg h15, if_neg h30, if_neg h60]
  · intro bitmap density copies
    unfold build_print_command
    rw [(by decide : strBytes "\x1b!o\r\n" = [0x1B, 0x21, 0x6F, 0x0D, 0x0A]),
        (by decide : strBytes "\r\n" = [0x0D, 0x0A])]

/-- Witness for the amended C8: timeout 45 is rejected, and a density-0,
copies-0 print job still emits a frame. -/
theorem timeout_rejected_print_params_unchecked_witness :
    get_timeout_command 45 = none ∧
    build_print_command [] 0 0 =
      [0x1B, 0x21, 0x6F, 0x0D, 0x0A] ++
      strBytes "SIZE 14.0 mm,40.0 mm\r\n" ++
      strBytes "GAP 5.0 mm,0 mm\r\n" ++
      strBytes "DIRECTION 1,1\r\n" ++
      (strBytes "DENSITY " ++ asciiDigits 0 ++ [0x0D, 0x0A]) ++
      strBytes "CLS\r\n" ++
      strBytes "BITMAP 0,0,12,284,1," ++
      [] ++
      ([0x0D, 0x0A] ++ strBytes "PRINT " ++ asciiDigits 0 ++ [0x0D, 0x0A]) :=
  ⟨timeout_rejected_print_params_unchecked.1 45 (by decide) (by decide) (by decide) (by decide),
   timeout_rejected_print_params_unchecked.2 [] 0 0⟩

/-- C9 counterexample: the transmitted readiness query is not the bare 3-byte
sequence 1B 21 3F, and the transmitted status query is not the 5-byte
sequence 1B 21 6F 0D 0A, because send_command appends CR LF to every encoded
command. -/
theorem query_bytes_counterexample :
    readiness_query_bytes ≠ [0x1B, 0x21, 0x3F] ∧
    status_query_bytes ≠ [0x1B, 0x21, 0x6F, 0x0D, 0x0A] := by
  exact ⟨by decide, by decide⟩

/-- C9 amended: the readiness command string is 1B 21 3F and the status
command string is 1B 21 6F 0D 0A, but send_command appends CR LF to every
encoded command, so the transmitted frames are 1B 21 3F 0D 0A and
1B 21 6F 0D 0A 0D 0A respectively. -/
theorem query_bytes_with_terminator :
    strBytes "\x1b!?" = [0x1B, 0x21, 0x3F] ∧
    strBytes "\x1b!o\r\n" = [0x1B, 0x21, 0x6F, 0x0D, 0x0A] ∧
    readiness_query_bytes = [0x1B, 0x21, 0x3F, 0x0D, 0x0A] ∧
    status_query_bytes = [0x1B, 0x21, 0x6F, 0x0D, 0x0A, 0x0D, 0x0A] := by
  exact ⟨by decide, by decide, by decide, by decide⟩

/-- C10: the envelope stripper never inspects the final two bytes it strips -
any response that starts with the expected prefix and whose length is prefix
length plus payload length plus 2 decodes to the payload, whatever the last
two bytes are. -/
theorem clean_serial_response_ignores_tail (pfx payload : List Nat) (n t1 t2 : Nat)
    (hlen : payload.length = n) :
    clean_serial_response (pfx ++ payload ++ [t1, t2]) pfx n = some payload := by
  rw [clean_serial_response_eq pfx payload [t1, t2] rfl, if_pos hlen]

/-- Witness for C10: a BATTERY envelope whose trailing two bytes are 0 0
(not CR LF) still decodes to its payload. -/
theorem clean_serial_response_ignores_tail_witness :
    clean_serial_response (strBytes "BATTERY " ++ [66, 1] ++ [0, 0])
      (strBytes "BATTERY ") 2 = some [66, 1] :=
  clean_serial_response_ignores_tail (strBytes "BATTERY ") [66, 1] 2 0 0 rfl
